import Mathlib

/-!
Verification model of jupyterlab_tensorboard_pro/handlers.py: the WSGI bridge
handle_wsgi_request_with_instance, the TensorboardHandler routing methods, and the
check_xsrf_cookie override. Python strings are lists of characters, Python bytes are
lists of naturals below 256, and the external collaborators the handlers call
(urllib.parse.unquote, tornado's WSGIContainer.environ and response-writing methods)
are modelled from their documented behaviour at the interface the spec fixes.
-/

namespace TbPro

/-- Characters of a Python string. -/
abbrev Str := List Char

/-- Bytes of a Python bytes object. -/
abbrev Bytes := List Nat

/-- Hexadecimal digit test covering both cases, as the escape table of urllib.parse is
built from the digits 0-9, A-F and a-f. -/
def isHexDigitC (c : Char) : Bool :=
  (48 ≤ c.toNat && c.toNat ≤ 57) || (65 ≤ c.toNat && c.toNat ≤ 70)
    || (97 ≤ c.toNat && c.toNat ≤ 102)

/-- Numeric value of a hexadecimal digit. -/
def hexVal (c : Char) : Nat :=
  if 48 ≤ c.toNat && c.toNat ≤ 57 then c.toNat - 48
  else if 65 ≤ c.toNat && c.toNat ≤ 70 then c.toNat - 55
  else c.toNat - 87

/-- Worker for the unquote_to_bytes model, consuming one character per step. The state
records a pending escape: none when outside an escape, some none directly after a
percent sign, and some (some h1) after a percent sign and one hexadecimal digit. A
completed escape emits its byte; an escape that cannot be completed emits the percent
sign and any consumed digit literally, exactly as the split-based algorithm of
urllib.parse keeps an entry of its table miss unchanged. -/
def u2bRun : Option (Option Char) → Str → Bytes
  | none, [] => []
  | some none, [] => [37]
  | some (some h1), [] => [37, h1.toNat]
  | none, c :: rest =>
    if c = '%' then u2bRun (some none) rest
    else c.toNat :: u2bRun none rest
  | some none, c :: rest =>
    if isHexDigitC c then u2bRun (some (some c)) rest
    else 37 :: (if c = '%' then u2bRun (some none) rest else c.toNat :: u2bRun none rest)
  | some (some h1), c :: rest =>
    if isHexDigitC c then (16 * hexVal h1 + hexVal c) :: u2bRun none rest
    else
      37 :: h1.toNat
        :: (if c = '%' then u2bRun (some none) rest else c.toNat :: u2bRun none rest)

/-- Model of urllib.parse.unquote_to_bytes on an ASCII run: a percent sign followed by
two hexadecimal digits becomes one byte; an invalid escape keeps its literal percent
sign and the following characters are copied unchanged. -/
def unquote_to_bytes (s : Str) : Bytes := u2bRun none s

/-- Continuation byte test for UTF-8. -/
def isCont (b : Nat) : Bool := 128 ≤ b && b ≤ 191

/-- The Unicode replacement character U+FFFD. -/
def replChar : Char := Char.ofNat 65533

/-- State of the UTF-8 decoder inside a multi-byte sequence: how many continuation
bytes are still needed, the code-point bits accumulated so far, and the allowed range
for the next byte (tightened on the second byte of a sequence to exclude overlong
forms, surrogates and values above the last code point). -/
structure Utf8State where
  need : Nat
  acc : Nat
  lo : Nat
  hi : Nat
deriving DecidableEq

/-- Classification of a byte at the start of a UTF-8 sequence: an ASCII byte or an
invalid lead byte emits characters directly, a valid lead byte opens a multi-byte
state. -/
def utf8Lead (b : Nat) : Str ⊕ Utf8State :=
  if b ≤ 127 then .inl [Char.ofNat b]
  else if 194 ≤ b && b ≤ 223 then .inr ⟨1, b - 192, 128, 191⟩
  else if 224 ≤ b && b ≤ 239 then
    if b = 224 then .inr ⟨2, 0, 160, 191⟩
    else if b = 237 then .inr ⟨2, b - 224, 128, 159⟩
    else .inr ⟨2, b - 224, 128, 191⟩
  else if 240 ≤ b && b ≤ 244 then
    if b = 240 then .inr ⟨3, 0, 144, 191⟩
    else if b = 244 then .inr ⟨3, b - 240, 128, 143⟩
    else .inr ⟨3, b - 240, 128, 191⟩
  else .inl [replChar]

/-- Worker of the UTF-8 decoder with the replace error handler, consuming one byte per
step: a byte outside the range a pending sequence allows replaces the maximal invalid
subpart consumed so far with one replacement character and is then re-examined as the
start of a new sequence, and a sequence truncated at the end of the input becomes one
replacement character, as bytes.decode with errors replace does. -/
def utf8Run : Option Utf8State → Bytes → Str
  | none, [] => []
  | some _, [] => [replChar]
  | none, b :: bs =>
    match utf8Lead b with
    | .inl cs => cs ++ utf8Run none bs
    | .inr st => utf8Run (some st) bs
  | some st, b :: bs =>
    if st.lo ≤ b && b ≤ st.hi then
      if st.need = 1 then Char.ofNat (st.acc * 64 + (b - 128)) :: utf8Run none bs
      else utf8Run (some ⟨st.need - 1, st.acc * 64 + (b - 128), 128, 191⟩) bs
    else
      replChar
        :: (match utf8Lead b with
            | .inl cs => cs ++ utf8Run none bs
            | .inr st2 => utf8Run (some st2) bs)

/-- UTF-8 decoding with the replace error handler of bytes.decode. -/
def utf8DecodeReplace (bs : Bytes) : Str := utf8Run none bs

/-- Worker of unquote: the input is consumed character by character; ASCII characters
are gathered (reversed) into the accumulator run, and at a non-ASCII character or the
end of the input the gathered run is percent-decoded to bytes and decoded as UTF-8 with
the replace handler, non-ASCII characters passing through unchanged. -/
def unquoteRuns (acc : Str) : Str → Str
  | [] => utf8DecodeReplace (unquote_to_bytes acc.reverse)
  | c :: rest =>
    if c.toNat ≤ 127 then unquoteRuns (c :: acc) rest
    else utf8DecodeReplace (unquote_to_bytes acc.reverse) ++ c :: unquoteRuns [] rest

/-- Model of urllib.parse.unquote with its default encoding and errors arguments: a
string without a percent sign is returned unchanged, otherwise percent escapes are
decoded exactly once; invalid escapes stay literal and the function never fails. -/
def unquote (s : Str) : Str :=
  if s.contains '%' then unquoteRuns [] s else s

/-- Whitespace stripped by the Python int constructor. -/
def isPySpace (c : Char) : Bool :=
  c = ' ' || c = '\t' || c = '\n' || c = '\r' || c.toNat = 11 || c.toNat = 12

/-- Digits of a Python int literal after the first one: a single underscore is allowed
only between two digits. The accumulator carries the value parsed so far. -/
def pyDigitsAux : Str → Nat → Option Nat
  | [], acc => some acc
  | '_' :: rest, acc =>
    match rest with
    | c :: rest2 => if c.isDigit then pyDigitsAux rest2 (acc * 10 + (c.toNat - 48)) else none
    | [] => none
  | c :: rest, acc => if c.isDigit then pyDigitsAux rest (acc * 10 + (c.toNat - 48)) else none

/-- Digit run of a Python int literal: at least one digit. -/
def pyNatDigits : Str → Option Nat
  | c :: rest => if c.isDigit then pyDigitsAux rest (c.toNat - 48) else none
  | [] => none

/-- Model of the Python int constructor applied to a string: optional surrounding
whitespace, an optional sign, then decimal digits; anything else raises, modelled as
none. -/
def pyInt? (s : Str) : Option Int :=
  let t := ((s.dropWhile isPySpace).reverse.dropWhile isPySpace).reverse
  match t with
  | '+' :: rest => (pyNatDigits rest).map Int.ofNat
  | '-' :: rest => (pyNatDigits rest).map (fun n => -(n : Int))
  | rest => (pyNatDigits rest).map Int.ofNat

/-- Model of status.split on a single space indexed at zero: the characters before the
first space. -/
def statusToken (s : Str) : Str := s.takeWhile (fun c => c ≠ ' ')

/-- The fields of the Tornado HTTPServerRequest that the handlers read. -/
structure Request where
  method : Str
  path : Str
  query : Str

/-- The WSGI environ fields the claims are about. -/
structure Environ where
  requestMethod : Str
  pathInfo : Str
  queryString : Str
deriving DecidableEq

/-- Modelled from the spec: the environ method of tornado's WSGIContainer in the server
versions this code targets copies the raw request path into PATH_INFO without
percent-decoding it (the asynchronous layer may leave it encoded), together with the
request method and query string. -/
def containerEnviron (request : Request) : Environ :=
  ⟨request.method, request.path, request.query⟩

/-- The environ a backend receives: containerEnviron followed by the single assignment
that percent-decodes PATH_INFO in handle_wsgi_request_with_instance. -/
def wsgiEnviron (request : Request) : Environ :=
  let e := containerEnviron request
  { e with pathInfo := unquote e.pathInfo }

/-- One call a backend makes to start_response: the status line, the header list, and
whether exc_info was passed; the adapter's start_response ignores exc_info. -/
structure StartResponseCall where
  status : Str
  headers : List (Str × Str)
  excInfo : Bool
deriving DecidableEq

/-- The value a WSGI application returns: a contiguous bytes object, or an iterable of
byte chunks that may or may not carry a close hook. -/
inductive Body where
  | buffer (b : Bytes)
  | chunks (cs : List Bytes) (hasClose : Bool)
deriving DecidableEq

/-- A pure model of a WSGI application: the start_response calls it makes and the value
it returns, both as functions of the environ it is invoked with. -/
structure WsgiApp where
  calls : Environ → List StartResponseCall
  result : Environ → Body

/-- The start_response closure the adapter supplies: each call stores its status and
header arguments into response_data, wholly replacing both previous values and ignoring
exc_info. -/
def start_response_step (_rd : Option Str × List (Str × Str)) (c : StartResponseCall) :
    Option Str × List (Str × Str) :=
  (some c.status, c.headers)

/-- The response_data record after the backend's start_response calls, starting from
status None and an empty header list. -/
def foldStartResponse (calls : List StartResponseCall) : Option Str × List (Str × Str) :=
  calls.foldl start_response_step (none, [])

/-- What the body expression of the returned dictionary does: a bytes result is used
as-is, any other result has its chunks joined in order; the source never invokes a
close hook on the result, so the trace records closeCalled false in both cases. -/
def drainBody : Body → Bytes × Bool
  | .buffer b => (b, false)
  | .chunks cs _ => (cs.flatten, false)

/-- Failure of the adapter before the response dictionary is produced: the status was
never set (so splitting the stored None raises), or the first token of the status line
is not an int. -/
inductive WsgiError where
  | noStatusSet
  | badStatusLine
deriving DecidableEq

/-- The dictionary handle_wsgi_request_with_instance returns, extended with a trace of
whether the returned iterable's close hook was invoked during the call. -/
structure CapturedResponse where
  status_code : Int
  headers : List (Str × Str)
  body : Bytes
  closeCalled : Bool
deriving DecidableEq

/-- Model of handle_wsgi_request_with_instance: build environ from the request and
percent-decode PATH_INFO once, run the application against the recording
start_response, then parse the first space-separated token of the stored status line as
an int and normalize the returned body. -/
def handle_wsgi_request_with_instance (tb_app : WsgiApp) (request : Request) :
    Except WsgiError CapturedResponse :=
  let environ := wsgiEnviron request
  let rd := foldStartResponse (tb_app.calls environ)
  match rd.1 with
  | none => .error .noStatusSet
  | some status =>
    match pyInt? (statusToken status) with
    | none => .error .badStatusLine
    | some code =>
      let dr := drainBody (tb_app.result environ)
      .ok ⟨code, rd.2, dr.1, dr.2⟩

/-- One entry of the tensorboard manager: the instance's WSGI application. -/
structure Instance where
  tb_app : WsgiApp

/-- The instance registry installed in the server settings: a mapping from names to
instances; the name-in-manager test is membership and indexing is lookup. -/
abbrev Manager := Str → Option Instance

/-- A record of one backend invocation: the application called and the environ it
received. -/
structure Invocation where
  app : WsgiApp
  env : Environ

/-- Outcome of the impl method of TensorboardHandler: a replayed response, an exception
escaping from the adapter before anything is written, or a raised HTTPError. -/
inductive RouteOutcome where
  | replay (inv : Invocation) (statusCode : Int) (headers : List (Str × Str)) (body : Bytes)
  | exception (inv : Invocation) (e : WsgiError)
  | httpError (code : Nat)

/-- Model of the impl method of TensorboardHandler: set the request path to the
sub-path, look the name up in the manager, and on a hit run the adapter and replay its
captured response; on a miss raise HTTPError 404. -/
def TensorboardHandler_impl (manager : Manager) (request : Request) (name path : Str) :
    RouteOutcome :=
  let request := { request with path := path }
  match manager name with
  | some inst =>
    let inv : Invocation := ⟨inst.tb_app, wsgiEnviron request⟩
    match handle_wsgi_request_with_instance inst.tb_app request with
    | .ok resp => .replay inv resp.status_code resp.headers resp.body
    | .error e => .exception inv e
  | none => .httpError 404

/-- Tornado's redirect status: 301 when permanent, 302 otherwise. -/
def redirectStatus (permanent : Bool) : Nat := if permanent then 301 else 302

/-- Outcome of a GET or POST handler method: a redirect, or the outcome of impl, with a
raised HTTPError represented by the corresponding RouteOutcome. -/
inductive HandlerOutcome where
  | redirect (uri : Str) (status : Nat)
  | handled (o : RouteOutcome)

/-- Model of the get method of TensorboardHandler after authentication: an empty
sub-path issues a permanent redirect to the request path with a trailing slash,
appending the query string after a question mark when it is non-empty; any other
sub-path delegates to impl. -/
def TensorboardHandler_get (manager : Manager) (request : Request) (name path : Str) :
    HandlerOutcome :=
  if path = [] then
    let uri := request.path ++ ['/']
    let uri := if request.query = [] then uri else uri ++ '?' :: request.query
    .redirect uri (redirectStatus true)
  else
    .handled (TensorboardHandler_impl manager request name path)

/-- Model of the post method of TensorboardHandler after authentication: an empty
sub-path raises HTTPError 403 before any registry lookup; any other sub-path delegates
to impl. -/
def TensorboardHandler_post (manager : Manager) (request : Request) (name path : Str) :
    HandlerOutcome :=
  if path = [] then .handled (.httpError 403)
  else .handled (TensorboardHandler_impl manager request name path)

/-- The invocation recorded in a route outcome, when a backend was called. -/
def routeInvocation : RouteOutcome → Option Invocation
  | .replay inv _ _ _ => some inv
  | .exception inv _ => some inv
  | .httpError _ => none

/-- The PATH_INFO the invoked backend received, when a backend was called. -/
def routeInvokedPathInfo (o : RouteOutcome) : Option Str :=
  (routeInvocation o).map (fun inv => inv.env.pathInfo)

/-- The backend invocation behind a handler outcome, if any. -/
def handlerInvocation : HandlerOutcome → Option Invocation
  | .redirect _ _ => none
  | .handled o => routeInvocation o

/-- Whether a route outcome is a raised HTTPError. -/
def isRouteHttpError : RouteOutcome → Bool
  | .httpError _ => true
  | _ => false

/-- The status the client sees: the replayed status code, 500 for an exception escaping
the handler (tornado turns an uncaught exception into an internal-server-error
response), or the raised HTTPError code. -/
def surfacedStatus : RouteOutcome → Int
  | .replay _ s _ _ => s
  | .exception _ _ => 500
  | .httpError c => (c : Int)

/-- The backend body bytes flushed to the client: only a replayed response writes
any; an exception or HTTPError reaches tornado before the write call. -/
def flushedBody : RouteOutcome → Bytes
  | .replay _ _ _ b => b
  | _ => []

/-- Python str.split on a separator character, preserving empty pieces. -/
def splitOnChar (sep : Char) : Str → List Str
  | [] => [[]]
  | c :: rest =>
    if c = sep then [] :: splitOnChar sep rest
    else
      match splitOnChar sep rest with
      | h :: t => (c :: h) :: t
      | [] => [[c]]

/-- Python str.capitalize: first character uppercased, the rest lowercased. -/
def capitalizePy : Str → Str
  | [] => []
  | c :: rest => c.toUpper :: rest.map Char.toLower

/-- Tornado's header-name normalization: capitalize each dash-separated piece. -/
def normalizeHeaderName (n : Str) : Str :=
  List.intercalate ['-'] ((splitOnChar '-' n).map capitalizePy)

/-- Tornado's set_header on the ordered response-header mapping: a header whose
normalized name is already present is overwritten in place, a new one is appended. -/
def setHeaderStep (acc : List (Str × Str)) (name value : Str) : List (Str × Str) :=
  let n := normalizeHeaderName name
  if acc.any (fun p => p.1 == n) then
    acc.map (fun p => if p.1 == n then (n, value) else p)
  else acc ++ [(n, value)]

/-- The headers the client sees after the replay loop of impl sets each captured
header in order on a fresh response. -/
def replayHeaders (hs : List (Str × Str)) : List (Str × Str) :=
  hs.foldl (fun acc p => setHeaderStep acc p.1 p.2) []

/-- What impl writes to the client on a successful replay: the captured status code,
the headers after the set_header loop, and the captured body. -/
structure ClientResponse where
  status : Int
  headers : List (Str × Str)
  body : Bytes
deriving DecidableEq

/-- The client response produced by the replay branch of impl, when reached. -/
def clientResponse : RouteOutcome → Option ClientResponse
  | .replay _ s h b => some ⟨s, replayHeaders h, b⟩
  | _ => none

/-- A tornado web.HTTPError the way the XSRF check raises and catches it: a status code
and a log message. -/
structure HTTPErrorT where
  status : Nat
  msg : Str
deriving DecidableEq

/-- Model of check_xsrf_cookie of TensorboardHandler: run the host's default check;
when it raises an HTTPError and the method is POST, a passing referer check suppresses
the error, a failing one raises 403 with a message naming the referer, or the
unknown-origin message when no referer header exists; any other method re-raises the
original error. -/
def check_xsrf_cookie (superCheck : Except HTTPErrorT Unit) (method : Str)
    (refererOk : Bool) (referer : Option Str) : Except HTTPErrorT Unit :=
  match superCheck with
  | .ok u => .ok u
  | .error e =>
    if method = "POST".toList then
      if refererOk then .ok ()
      else
        match referer with
        | some r =>
          .error ⟨403, "Blocking Cross Origin request from ".toList ++ r ++ ".".toList⟩
        | none => .error ⟨403, "Blocking request from unknown origin".toList⟩
    else .error e

/-- A backend answering 200 OK with one content-type header and the body hello, as in
the scenario of the spec. -/
def echoApp : WsgiApp where
  calls := fun _ =>
    [⟨"200 OK".toList, [("Content-Type".toList, "text/plain".toList)], false⟩]
  result := fun _ => .chunks ["hello".toList.map Char.toNat] false

/-- A registry holding echoApp under the name 1. -/
def egManager : Manager := fun n => if n = "1".toList then some ⟨echoApp⟩ else none

/-- A sample inbound request. -/
def egRequest : Request := ⟨"GET".toList, "/tensorboard_pro/1/data".toList, []⟩

/-- A backend that sets the same header name twice in one start_response call. -/
def dupApp : WsgiApp where
  calls := fun _ =>
    [⟨"200 OK".toList, [("X-A".toList, "1".toList), ("X-A".toList, "2".toList)], false⟩]
  result := fun _ => .chunks ["hi".toList.map Char.toNat] false

/-- A registry holding dupApp under the name 1. -/
def dupManager : Manager := fun n => if n = "1".toList then some ⟨dupApp⟩ else none

/-- A backend that returns without ever calling start_response. -/
def silentApp : WsgiApp where
  calls := fun _ => []
  result := fun _ => .chunks [] false

/-- A registry holding silentApp under the name 1. -/
def silentManager : Manager := fun n => if n = "1".toList then some ⟨silentApp⟩ else none

/-- A backend returning its body as two chunks through an iterable that carries a close
hook. -/
def closeApp : WsgiApp where
  calls := fun _ => [⟨"200 OK".toList, [], false⟩]
  result := fun _ => .chunks ["he".toList.map Char.toNat, "llo".toList.map Char.toNat] true

/-- Whether a body value carries a close hook. -/
def bodyHasClose : Body → Bool
  | .buffer _ => false
  | .chunks _ hc => hc

/-- A backend that calls start_response twice, the second time with exc_info. -/
def twoCallApp : WsgiApp where
  calls := fun _ =>
    [⟨"500 Oops".toList, [("A".toList, "1".toList)], false⟩,
     ⟨"201 Created".toList, [("B".toList, "2".toList)], true⟩]
  result := fun _ => .buffer []

/-- C3: a GET with empty sub-path always issues a permanent 301 redirect to the request
path with a trailing slash, appending a question mark and the query string exactly when
the query string is non-empty, and the backend is never invoked. -/
theorem C3_redirect_law (manager : Manager) (request : Request) (name : Str) :
    TensorboardHandler_get manager request name []
        = .redirect (request.path ++ ['/']
            ++ (if request.query = [] then [] else '?' :: request.query)) 301
    ∧ handlerInvocation (TensorboardHandler_get manager request name []) = none := by
  constructor
  · by_cases hq : request.query = [] <;>
      simp [TensorboardHandler_get, redirectStatus, hq]
  · simp [TensorboardHandler_get, handlerInvocation]

/-- C4: a POST with empty sub-path raises HTTPError 403 uniformly in the registry
state, and no backend is invoked. -/
theorem C4_post_empty_403 (manager : Manager) (request : Request) (name : Str) :
    TensorboardHandler_post manager request name [] = .handled (.httpError 403)
    ∧ handlerInvocation (TensorboardHandler_post manager request name []) = none := by
  constructor <;> simp [TensorboardHandler_post, handlerInvocation, routeInvocation]

/-- C6: when the host's default XSRF check raises a 403 error, a POST with a passing
referer check is allowed, a POST with a failing referer check raises 403 naming the
offending referer, or the unknown-origin message when no referer header exists, and any
method other than POST propagates the original error unchanged. -/
theorem C6_xsrf_exemption (e : HTTPErrorT) (method : Str) (refererOk : Bool)
    (referer : Option Str) (_h403 : e.status = 403) :
    (method = "POST".toList → refererOk = true →
      check_xsrf_cookie (.error e) method refererOk referer = .ok ())
    ∧ (method = "POST".toList → refererOk = false → ∀ r, referer = some r →
        check_xsrf_cookie (.error e) method refererOk referer
          = .error ⟨403, "Blocking Cross Origin request from ".toList ++ r ++ ".".toList⟩)
    ∧ (method = "POST".toList → refererOk = false → referer = none →
        check_xsrf_cookie (.error e) method refererOk referer
          = .error ⟨403, "Blocking request from unknown origin".toList⟩)
    ∧ (method ≠ "POST".toList →
        check_xsrf_cookie (.error e) method refererOk referer = .error e) := by
  refine ⟨?_, ?_, ?_, ?_⟩
  · intro hm hr
    simp [check_xsrf_cookie, hm, hr]
  · intro hm hr r href
    simp [check_xsrf_cookie, hm, hr, href]
  · intro hm hr href
    simp [check_xsrf_cookie, hm, hr, href]
  · intro hm
    simp only [check_xsrf_cookie]
    rw [if_neg hm]

/-- C6 witness: a POST whose default check raised 403, with a failing referer check and
an off-origin referer header, is rejected with a 403 naming that referer. -/
theorem C6_xsrf_exemption_witness :
    check_xsrf_cookie (.error ⟨403, []⟩) "POST".toList false (some "http://evil.example".toList)
      = .error ⟨403, "Blocking Cross Origin request from ".toList
          ++ "http://evil.example".toList ++ ".".toList⟩ :=
  (C6_xsrf_exemption ⟨403, []⟩ "POST".toList false (some "http://evil.example".toList)
      rfl).2.1 rfl rfl "http://evil.example".toList rfl

/-- C9: the adapter concatenates the returned chunks in order, but even when the
returned iterable carries a close hook it never invokes it: the captured response of
closeApp records closeCalled false although its returned body has a close hook. -/
theorem C9_close_never_called :
    bodyHasClose (closeApp.result (wsgiEnviron egRequest)) = true
    ∧ handle_wsgi_request_with_instance closeApp egRequest
        = .ok ⟨200, [], "hello".toList.map Char.toNat, false⟩ := by
  exact ⟨rfl, rfl⟩

/-- C10: start_response may be called any number of times without an error: each call
wholly replaces the stored status and header list, the captured response is built from
the final call's arguments alone, and the adapter returns it successfully when the
final status line parses. -/
theorem C10_last_call_wins (app : WsgiApp) (request : Request)
    (cs : List StartResponseCall) (c : StartResponseCall) (code : Int)
    (hcalls : app.calls (wsgiEnviron request) = cs ++ [c])
    (hcode : pyInt? (statusToken c.status) = some code) :
    (∀ rd c2, start_response_step rd c2 = (some c2.status, c2.headers))
    ∧ foldStartResponse (cs ++ [c]) = (some c.status, c.headers)
    ∧ handle_wsgi_request_with_instance app request
        = .ok ⟨code, c.headers, (drainBody (app.result (wsgiEnviron request))).1,
            (drainBody (app.result (wsgiEnviron request))).2⟩ := by
  have hfold : foldStartResponse (cs ++ [c]) = (some c.status, c.headers) := by
    simp [foldStartResponse, List.foldl_append, start_response_step]
  refine ⟨fun _ _ => rfl, hfold, ?_⟩
  simp only [handle_wsgi_request_with_instance, hcalls, hfold, hcode]

/-- C10 witness: a backend calling start_response twice, the second time with exc_info,
is captured from the second call alone. -/
theorem C10_last_call_wins_witness :
    handle_wsgi_request_with_instance twoCallApp egRequest
      = .ok ⟨201, [("B".toList, "2".toList)], [], false⟩ :=
  (C10_last_call_wins twoCallApp egRequest
      [⟨"500 Oops".toList, [("A".toList, "1".toList)], false⟩]
      ⟨"201 Created".toList, [("B".toList, "2".toList)], true⟩ 201 rfl rfl).2.2

/-- C1 counterexample: for the registered name 1 and the sub-path a%20b the backend is
invoked, but the PATH_INFO it receives is the decoded a b, which differs from the
sub-path, so PATH_INFO is not equal to the sub-path in general. -/
theorem C1_cex :
    routeInvokedPathInfo
        (TensorboardHandler_impl egManager egRequest "1".toList "a%20b".toList)
      = some "a b".toList
    ∧ "a b".toList ≠ "a%20b".toList := by decide

/-- C1 (amended): with the name present in the registry, the handler invokes exactly
that instance's application with PATH_INFO equal to the percent-decoding unquote of the
sub-path, which coincides with the sub-path whenever it holds no percent sign; a GET
with non-empty sub-path reaches exactly this routing; with the name absent the handler
raises 404 without invoking any application. -/
theorem C1_routing (manager : Manager) (request : Request) (name path : Str) :
    (∀ inst, manager name = some inst →
      routeInvocation (TensorboardHandler_impl manager request name path)
        = some ⟨inst.tb_app, ⟨request.method, unquote path, request.query⟩⟩)
    ∧ (path.contains '%' = false → unquote path = path)
    ∧ (path ≠ [] →
        TensorboardHandler_get manager request name path
          = .handled (TensorboardHandler_impl manager request name path))
    ∧ (manager name = none →
        TensorboardHandler_impl manager request name path = .httpError 404) := by
  refine ⟨?_, ?_, ?_, ?_⟩
  · intro inst h
    cases hr : handle_wsgi_request_with_instance inst.tb_app { request with path := path } <;>
      simp [TensorboardHandler_impl, h, hr, routeInvocation, wsgiEnviron, containerEnviron]
  · intro h
    simp only [unquote]
    rw [h]
    simp
  · intro h
    simp [TensorboardHandler_get, h]
  · intro h
    simp [TensorboardHandler_impl, h]

/-- C1 witness: with echoApp registered under the name 1, the handler invokes echoApp
with the decoded sub-path as PATH_INFO. -/
theorem C1_routing_witness :
    routeInvocation (TensorboardHandler_impl egManager egRequest "1".toList "data".toList)
      = some ⟨echoApp, ⟨"GET".toList, unquote "data".toList, []⟩⟩ :=
  (C1_routing egManager egRequest "1".toList "data".toList).1 ⟨echoApp⟩ rfl

/-- C5: the PATH_INFO delivered to the invoked backend is the effective request path
percent-decoded exactly once by unquote: a%20b arrives as a b, not left encoded, and
a%2520b arrives as a%20b, not decoded a second time. -/
theorem C5_decode_once (manager : Manager) (request : Request) (name path : Str)
    (inst : Instance) (h : manager name = some inst) :
    routeInvokedPathInfo (TensorboardHandler_impl manager request name path)
        = some (unquote path)
    ∧ unquote "a%20b".toList = "a b".toList
    ∧ unquote "a%2520b".toList = "a%20b".toList := by
  refine ⟨?_, by decide, by decide⟩
  cases hr : handle_wsgi_request_with_instance inst.tb_app { request with path := path } <;>
    simp [TensorboardHandler_impl, h, hr, routeInvokedPathInfo, routeInvocation,
      wsgiEnviron, containerEnviron]

/-- C5 witness: the registered backend receives the decoded PATH_INFO a b for the
sub-path a%20b. -/
theorem C5_decode_once_witness :
    routeInvokedPathInfo
        (TensorboardHandler_impl egManager egRequest "1".toList "a%20b".toList)
      = some (unquote "a%20b".toList) :=
  (C5_decode_once egManager egRequest "1".toList "a%20b".toList ⟨echoApp⟩ rfl).1

/-- C7 counterexample: a sub-path carrying the malformed escape %zz does not make
building the environment fail: unquote leaves it unchanged, the backend is invoked with
it, and the surfaced status is the backend's 200, not a 400. -/
theorem C7_cex :
    unquote "a%zzb".toList = "a%zzb".toList
    ∧ routeInvokedPathInfo
        (TensorboardHandler_impl egManager egRequest "1".toList "a%zzb".toList)
      = some "a%zzb".toList
    ∧ surfacedStatus
        (TensorboardHandler_impl egManager egRequest "1".toList "a%zzb".toList)
      = 200 := by decide

/-- C7 (amended): building the environment never fails on malformed percent-encoding:
unquote is total and leaves an invalid escape unchanged, and with the name registered
the handler invokes the backend with the malformed sequence intact in PATH_INFO and
raises no HTTPError at all, in particular no 400. -/
theorem C7_malformed_no_failure (manager : Manager) (request : Request) (name path : Str)
    (inst : Instance) (h : manager name = some inst) :
    routeInvokedPathInfo (TensorboardHandler_impl manager request name path)
        = some (unquote path)
    ∧ isRouteHttpError (TensorboardHandler_impl manager request name path) = false
    ∧ unquote "a%zzb".toList = "a%zzb".toList := by
  refine ⟨?_, ?_, by decide⟩ <;>
    cases hr : handle_wsgi_request_with_instance inst.tb_app { request with path := path } <;>
      simp [TensorboardHandler_impl, h, hr, routeInvokedPathInfo, routeInvocation,
        isRouteHttpError, wsgiEnviron, containerEnviron]

/-- C7 witness: with the backend registered, the malformed sub-path a%zzb flows through
unchanged and no HTTPError is raised. -/
theorem C7_malformed_no_failure_witness :
    isRouteHttpError
        (TensorboardHandler_impl egManager egRequest "1".toList "a%zzb".toList)
      = false :=
  (C7_malformed_no_failure egManager egRequest "1".toList "a%zzb".toList ⟨echoApp⟩ rfl).2.1

/-- C8: a backend returning without ever calling start_response makes status resolution
fail with the NoStatusSet condition; the condition escapes the handler, the surfaced
status is 500, and no body bytes are flushed. -/
theorem C8_no_status_set (manager : Manager) (request : Request) (name path : Str)
    (inst : Instance) (h : manager name = some inst)
    (hcalls : inst.tb_app.calls (wsgiEnviron { request with path := path }) = []) :
    handle_wsgi_request_with_instance inst.tb_app { request with path := path }
        = .error .noStatusSet
    ∧ TensorboardHandler_impl manager request name path
        = .exception ⟨inst.tb_app, wsgiEnviron { request with path := path }⟩ .noStatusSet
    ∧ surfacedStatus (TensorboardHandler_impl manager request name path) = 500
    ∧ flushedBody (TensorboardHandler_impl manager request name path) = [] := by
  have h1 : handle_wsgi_request_with_instance inst.tb_app { request with path := path }
      = .error .noStatusSet := by
    simp [handle_wsgi_request_with_instance, hcalls, foldStartResponse]
  refine ⟨h1, ?_, ?_, ?_⟩ <;>
    simp [TensorboardHandler_impl, h, h1, surfacedStatus, flushedBody]

/-- C8 witness: the registered silentApp, which never calls start_response, surfaces a
500 with an empty flushed body. -/
theorem C8_no_status_set_witness :
    surfacedStatus
        (TensorboardHandler_impl silentManager egRequest "1".toList "data".toList)
      = 500 :=
  (C8_no_status_set silentManager egRequest "1".toList "data".toList ⟨silentApp⟩
      rfl rfl).2.2.1

/-- C2 counterexample: a backend emitting the header name X-A twice is replayed with a
single X-A header carrying the last value, so the client headers are not the captured
header list with its duplicate. -/
theorem C2_cex :
    (clientResponse
          (TensorboardHandler_impl dupManager egRequest "1".toList "data".toList)).map
        ClientResponse.headers
      = some [("X-A".toList, "2".toList)]
    ∧ [("X-A".toList, "2".toList)]
        ≠ [("X-A".toList, "1".toList), ("X-A".toList, "2".toList)] := by decide

/-- Auxiliary for the amended C2: folding set_header over a header list whose names are
already normalized and pairwise distinct, starting from an accumulator whose names are
disjoint from them, appends the headers in order. -/
theorem setHeaderFold_eq_append (H : List (Str × Str)) (acc : List (Str × Str))
    (hn : ∀ p ∈ H, normalizeHeaderName p.1 = p.1)
    (hnd : (H.map Prod.fst).Nodup)
    (hdisj : ∀ p ∈ H, ∀ q ∈ acc, q.1 ≠ p.1) :
    H.foldl (fun acc p => setHeaderStep acc p.1 p.2) acc = acc ++ H := by
  induction H generalizing acc with
  | nil => simp
  | cons p rest ih =>
    have hstep : setHeaderStep acc p.1 p.2 = acc ++ [p] := by
      have hany : acc.any (fun q => q.1 == p.1) = false := by
        simp only [List.any_eq_false]
        intro q hq
        simpa using hdisj p (List.mem_cons_self p rest) q hq
      simp only [setHeaderStep, hn p (List.mem_cons_self p rest), hany]
      simp
    have hmemrest : ∀ p2 ∈ rest, p.1 ≠ p2.1 := by
      intro p2 hp2
      have := hnd
      simp only [List.map_cons, List.nodup_cons] at this
      intro heq
      exact this.1 (heq ▸ List.mem_map_of_mem Prod.fst hp2)
    have hdisj2 : ∀ p2 ∈ rest, ∀ q ∈ acc ++ [p], q.1 ≠ p2.1 := by
      intro p2 hp2 q hq
      rcases List.mem_append.mp hq with hq1 | hq2
      · exact hdisj p2 (List.mem_cons_of_mem p hp2) q hq1
      · have : q = p := by simpa using hq2
        subst this
        exact hmemrest p2 hp2
    have ihr := ih (acc ++ [p])
      (fun p2 hp2 => hn p2 (List.mem_cons_of_mem p hp2))
      (by simpa using (List.nodup_cons.mp (by simpa using hnd)).2)
      hdisj2
    simp only [List.foldl_cons, hstep, ihr, List.append_assoc, List.singleton_append]

/-- C2 (amended): for a backend whose single start_response call records status line S
and header list H and which returns a chunk list, the replayed client response carries
the parsed status code of S and the in-order concatenation of the chunks, and its
headers are the result of running tornado set_header over H in order, which normalizes
each name's capitalization and overwrites an earlier header of the same normalized name
in place, collapsing duplicates to the last value; when the names in H are already
normalized and pairwise distinct the replayed headers are exactly H in order. -/
theorem C2_response_fidelity (manager : Manager) (request : Request) (name path : Str)
    (inst : Instance) (S : Str) (H : List (Str × Str)) (ei : Bool) (cs : List Bytes)
    (hc : Bool) (code : Int) (h : manager name = some inst)
    (hcalls : inst.tb_app.calls (wsgiEnviron { request with path := path })
      = [⟨S, H, ei⟩])
    (hres : inst.tb_app.result (wsgiEnviron { request with path := path })
      = .chunks cs hc)
    (hcode : pyInt? (statusToken S) = some code) :
    clientResponse (TensorboardHandler_impl manager request name path)
        = some ⟨code, replayHeaders H, cs.flatten⟩
    ∧ ((∀ p ∈ H, normalizeHeaderName p.1 = p.1) → (H.map Prod.fst).Nodup →
        replayHeaders H = H) := by
  constructor
  · simp [TensorboardHandler_impl, h, handle_wsgi_request_with_instance, hcalls, hres,
      hcode, foldStartResponse, start_response_step, drainBody, clientResponse]
  · intro hn hnd
    simpa [replayHeaders] using
      setHeaderFold_eq_append H [] hn hnd (by simp)

/-- C2 witness: the registered echoApp's 200 response with its single content-type
header and chunked body hello is replayed with that status, that header list, and the
concatenated body. -/
theorem C2_response_fidelity_witness :
    clientResponse (TensorboardHandler_impl egManager egRequest "1".toList "data".toList)
      = some ⟨200, replayHeaders [("Content-Type".toList, "text/plain".toList)],
          ["hello".toList.map Char.toNat].flatten⟩ :=
  (C2_response_fidelity egManager egRequest "1".toList "data".toList ⟨echoApp⟩
      "200 OK".toList [("Content-Type".toList, "text/plain".toList)] false
      ["hello".toList.map Char.toNat] false 200 rfl rfl rfl rfl).1

end TbPro
